import Mathlib

/-!
# AutomatedTraderMCP — verification of the control-plane core

A shallow embedding, in Lean 4, of the safety-critical parts of the
AutomatedTraderMCP trading control plane, together with theorems checking the
natural-language specification against the code:

* the Risk Gate order-validation pipeline and its day rollover
  (`src/trader/risk/manager.py`),
* the Kill Switch deactivation gate (`src/trader/risk/kill_switch.py`),
* the Broker Client facade: parameter validation, the paper-mode gate and the
  retry-with-backoff operator (`src/trader/api/client.py`),
* the sliding-window rate limiter (`src/trader/api/rate_limiter.py`),
* the GTT store: status updates, cancellation, statistics and the
  row-to-record conversion (`src/trader/gtt/storage.py`, `src/trader/api/models.py`).

Python floats are modelled as `ℚ`, timestamps as `Int` ticks (one microsecond
per tick, the resolution of `datetime.now()`), calendar dates as `Int` day
ordinals.  Log calls, the per-reason statistics counters and human-readable
message strings carry no control flow and are elided; every branch that
affects a result or a piece of state is kept.
-/

deriving instance DecidableEq for Except

namespace Trader

/-! ## Risk Gate (`src/trader/risk/manager.py`) -/

/-- The limits `RiskManager._load_limits` reads from configuration: four soft
limits from the `risk` section and the five hard limits. -/
structure RiskLimits where
  maxPortfolioValue : ℚ
  maxPositionSize : ℚ
  maxDailyLoss : ℚ
  maxOpenPositions : Nat
  maxSingleOrderValue : ℚ
  maxDailyOrders : Nat
  maxDailyLossHard : ℚ
  forbiddenSegments : List String
  forbiddenProducts : List String
deriving DecidableEq

/-- The `models.Order` record (pydantic `Order` in `src/trader/api/models.py`),
with `Option` for the optional fields. -/
structure Order where
  order_id : String
  symbol : String
  exchange : Option String
  quantity : Int
  price : Option ℚ
  trigger_price : Option ℚ
  transaction_type : String
  order_type : String
  product : Option String
  status : Option String
  filled_quantity : Option Int
  average_price : Option ℚ
  timestamp : Int
  message : Option String
deriving DecidableEq

/-- The pydantic field constraints on `Order`: `quantity` is `gt=0`;
`price`, `trigger_price` and `average_price` are `ge=0` when given;
`filled_quantity` is `ge=0`.  Constructing an `Order` violating any of them
raises a validation error. -/
def Order.fieldsValid (o : Order) : Bool :=
  decide (0 < o.quantity) &&
  o.price.all (fun p => decide (0 ≤ p)) &&
  o.trigger_price.all (fun p => decide (0 ≤ p)) &&
  o.filled_quantity.all (fun q => decide (0 ≤ q)) &&
  o.average_price.all (fun p => decide (0 ≤ p))

/-- Mutable daily-tracking state owned by `RiskManager`: `_current_day`,
`_daily_pnl`, `_daily_order_count`, `_daily_orders`, `_open_positions`
(modelled by its key set) and `_position_count`. -/
structure RiskState where
  currentDay : Option Int
  dailyPnl : ℚ
  dailyOrderCount : Nat
  dailyOrders : List Order
  openPositions : List String
  positionCount : Nat
deriving DecidableEq

/-- The `OrderValidation` result: `approved` plus the `limit_type` tag identifying
the rejecting check (the formatted `reason` strings and the
`current_value`/`limit_value` payloads are elided — `limit_type` already
identifies the branch uniquely). -/
structure OrderValidation where
  approved : Bool
  limitType : Option String
deriving DecidableEq

/-- Embeds `RiskManager._check_day_rollover`: on a date change reset `_daily_pnl`,
`_daily_order_count` and `_daily_orders` and set `_current_day`, leaving the
position mirror untouched. -/
def checkDayRollover (today : Int) (st : RiskState) : RiskState :=
  if st.currentDay ≠ some today then
    { st with currentDay := some today, dailyPnl := 0, dailyOrderCount := 0,
              dailyOrders := [] }
  else st

/-- Embeds `RiskManager.validate_order`.  Runs the rollover, then the seven-step
pipeline, short-circuiting on the first failing check; returns the validation
result together with the post-call state (the only state mutation in
`validate_order` is the rollover). -/
def validateOrder (lim : RiskLimits) (today : Int) (st : RiskState)
    (symbol : String) (quantity : Int) (price : ℚ) (transaction_type : String)
    (order_type : String) (exchange : String) (product : String)
    (segment : String) : OrderValidation × RiskState :=
  let st1 := checkDayRollover today st
  let orderValue : ℚ := quantity * price
  let result : OrderValidation :=
    if lim.maxSingleOrderValue < orderValue then
      ⟨false, some "max_single_order_value"⟩
    else if transaction_type = "BUY" ∧ lim.maxPositionSize < orderValue then
      ⟨false, some "max_position_size"⟩
    else if lim.maxDailyOrders ≤ st1.dailyOrderCount then
      ⟨false, some "max_daily_orders"⟩
    else if transaction_type = "BUY" ∧ symbol ∉ st1.openPositions ∧
        lim.maxOpenPositions ≤ st1.positionCount then
      ⟨false, some "max_open_positions"⟩
    else if st1.dailyPnl < 0 ∧ lim.maxDailyLossHard ≤ |st1.dailyPnl| then
      ⟨false, some "max_daily_loss_hard"⟩
    else if st1.dailyPnl < 0 ∧ lim.maxDailyLoss ≤ |st1.dailyPnl| then
      ⟨false, some "max_daily_loss"⟩
    else if segment ∈ lim.forbiddenSegments then
      ⟨false, some "forbidden_segment"⟩
    else if product ∈ lim.forbiddenProducts then
      ⟨false, some "forbidden_product"⟩
    else ⟨true, none⟩
  (result, st1)

/-- Embeds `RiskManager.record_order`: rollover, then append the order and bump the
daily count. -/
def recordOrder (today : Int) (st : RiskState) (o : Order) : RiskState :=
  let st1 := checkDayRollover today st
  { st1 with dailyOrders := st1.dailyOrders ++ [o],
             dailyOrderCount := st1.dailyOrderCount + 1 }

/-! ## Kill Switch (`src/trader/risk/kill_switch.py`) -/

/-- The kill-switch lockout state: `_active`, `_reason`, `_activated_at` and
`_activation_count`. -/
structure KSState where
  active : Bool
  reason : Option String
  activatedAt : Option Int
  activationCount : Nat
deriving DecidableEq

/-- The `KillSwitchActive` exceptions `deactivate` can raise, by blocking
reason; each carries the `activated_at` payload (the formatted message string
is determined by the constructor and its arguments). -/
inductive KSDeactError
  | invalidCode (activatedAt : Option Int)
  | cooldownNotElapsed (remainingSecs : Int) (activatedAt : Option Int)
deriving DecidableEq

/-- Embeds `KillSwitch.activate`: a no-op while active, otherwise records reason and
activation time. -/
def ksActivate (now : Int) (st : KSState) (reason : String) : KSState :=
  if st.active then st
  else { active := true, reason := some reason, activatedAt := some now,
         activationCount := st.activationCount + 1 }

/-- Embeds `KillSwitch.deactivate(admin_approval)` at clock `now` (seconds), with the
configured `approval_code` and `cooldown_minutes`.  Returns the Python return
value (`False` when not active, `True` on success) or the raised exception,
paired with the state after the call. -/
def ksDeactivate (approvalCode : String) (cooldownMinutes : Int) (now : Int)
    (st : KSState) (adminApproval : String) :
    Except KSDeactError Bool × KSState :=
  if st.active = false then (.ok false, st)
  else if adminApproval ≠ approvalCode then
    (.error (.invalidCode st.activatedAt), st)
  else
    match st.activatedAt with
    | some t =>
        let elapsed := now - t
        let cooldown := cooldownMinutes * 60
        if elapsed < cooldown then
          (.error (.cooldownNotElapsed (cooldown - elapsed) st.activatedAt), st)
        else
          (.ok true, { st with active := false, reason := none,
                               activatedAt := none })
    | none =>
        (.ok true, { st with active := false, reason := none,
                             activatedAt := none })

/-! ## Broker Client facade (`src/trader/api/client.py`) -/

/-- Errors the pre-network part of `GrowwClient.place_order` can raise:
`InvalidOrderError` tagged with its `field` argument, or the pydantic
validation error from constructing an `Order` with out-of-range fields. -/
inductive ClientError
  | invalidOrder (field : String)
  | modelValidation
deriving DecidableEq

/-- Observable side effects of `place_order` up to the network boundary. -/
inductive Effect
  | rateAcquire (category : String)
  | sdkPlaceOrder
deriving DecidableEq

/-- What `place_order` does after its pre-network checks: return a synthetic
paper order, or proceed to the rate limiter and the broker SDK. -/
inductive PlaceResult
  | paper (o : Order)
  | live
deriving DecidableEq

/-- Python's `not symbol or not symbol.strip()`: the string is empty or
consists of whitespace only. -/
def blankSymbol (symbol : String) : Bool :=
  symbol.toList.all (fun c => c.isWhitespace)

/-- Embeds `GrowwClient._validate_order_params`, check for check: blank symbol,
non-positive quantity, forbidden product, forbidden segment, LIMIT without a
truthy positive price, STOP_LOSS / STOP_LOSS_MARKET without a truthy positive
trigger.  (Python's `not price` is true for `None` and for `0.0`; both are
covered by `price.getD 0 ≤ 0`.) -/
def validateOrderParams (forbiddenProducts forbiddenSegments : List String)
    (symbol : String) (quantity : Int) (order_type : String)
    (price trigger_price : Option ℚ) (product segment : String) :
    Except ClientError Unit :=
  if blankSymbol symbol then .error (.invalidOrder "symbol")
  else if quantity ≤ 0 then .error (.invalidOrder "quantity")
  else if product ∈ forbiddenProducts then .error (.invalidOrder "product")
  else if segment ∈ forbiddenSegments then .error (.invalidOrder "segment")
  else if order_type = "LIMIT" ∧ price.getD 0 ≤ 0 then
    .error (.invalidOrder "price")
  else if (order_type = "STOP_LOSS" ∨ order_type = "STOP_LOSS_MARKET") ∧
      trigger_price.getD 0 ≤ 0 then
    .error (.invalidOrder "trigger_price")
  else .ok ()

/-- The synthetic order the paper-mode branch of `place_order` constructs:
id `PAPER_<yyyymmddHHMMSS>_<symbol>` (`nowStr` is the formatted clock), status
`PENDING`, `filled_quantity=0`, message `PAPER MODE - Order simulated`. -/
def paperOrder (symbol exchange transaction_type : String) (quantity : Int)
    (order_type : String) (price trigger_price : Option ℚ) (product : String)
    (nowStr : String) (now : Int) : Order :=
  { order_id := "PAPER_" ++ nowStr ++ "_" ++ symbol
    symbol := symbol
    exchange := some exchange
    quantity := quantity
    price := price
    trigger_price := trigger_price
    transaction_type := transaction_type
    order_type := order_type
    product := some product
    status := some "PENDING"
    filled_quantity := some 0
    average_price := none
    timestamp := now
    message := some "PAPER MODE - Order simulated" }

/-- Embeds `GrowwClient.place_order` up to the network boundary: parameter
validation, the hard single-order-value gate computed over
`quantity * (price or 0)`, then either the paper-mode branch (whose `Order`
construction enforces the pydantic field bounds) or, in live mode, the rate
limiter acquire on `orders` followed by the SDK call. -/
def placeOrder (paperMode : Bool) (maxSingleOrderValue : ℚ)
    (forbiddenProducts forbiddenSegments : List String)
    (symbol exchange transaction_type : String) (quantity : Int)
    (order_type : String) (price trigger_price : Option ℚ)
    (product segment : String) (nowStr : String) (now : Int) :
    Except ClientError (PlaceResult × List Effect) :=
  match validateOrderParams forbiddenProducts forbiddenSegments symbol quantity
      order_type price trigger_price product segment with
  | .error e => .error e
  | .ok _ =>
    let orderValue : ℚ := quantity * price.getD 0
    if maxSingleOrderValue < orderValue then
      .error (.invalidOrder "order_value")
    else if paperMode then
      let o := paperOrder symbol exchange transaction_type quantity order_type
        price trigger_price product nowStr now
      if o.fieldsValid then .ok (.paper o, [])
      else .error .modelValidation
    else
      .ok (.live, [Effect.rateAcquire "orders", Effect.sdkPlaceOrder])

/-- The error kinds `_call_with_retry` distinguishes: the two non-retriable
exception classes and everything else (tagged to keep distinct errors
distinct). -/
inductive CallErr
  | invalidOrder
  | auth
  | other (tag : Nat)
deriving DecidableEq

/-- Returns `true` for the exceptions `_call_with_retry` re-raises without retrying:
`InvalidOrderError` and `AuthenticationError`. -/
def CallErr.noRetry : CallErr → Bool
  | .invalidOrder => true
  | .auth => true
  | .other _ => false

/-- The retry loop of `GrowwClient._call_with_retry` from attempt number
`attempt` with `remaining` further attempts allowed after the current one
(`remaining = 0` is the last trip through the loop, after which the last
exception is re-raised).  `f n` is the outcome of the n-th call of the wrapped
function; the returned list collects the `backoff_factor ** attempt = 1.5 ^
attempt` sleeps performed between attempts. -/
def retryFrom (f : Nat → Except CallErr Nat) (attempt : Nat) :
    Nat → Except CallErr Nat × List ℚ
  | 0 => (f attempt, [])
  | n + 1 =>
    match f attempt with
    | .ok v => (.ok v, [])
    | .error e =>
      if e.noRetry then (.error e, [])
      else
        let r := retryFrom f (attempt + 1) n
        (r.1, ((3 : ℚ) / 2) ^ attempt :: r.2)

/-- Embeds `GrowwClient._call_with_retry` with its defaults `max_retries=3`,
`backoff_factor=1.5`: at most three attempts in total. -/
def callWithRetry (f : Nat → Except CallErr Nat) : Except CallErr Nat × List ℚ :=
  retryFrom f 0 2

/-- An attempt outcome that the retry loop would retry: an error that is
neither `InvalidOrderError` nor `AuthenticationError`. -/
def retriable : Except CallErr Nat → Bool
  | .ok _ => false
  | .error e => !e.noRetry

/-! ## Rate limiter (`src/trader/api/rate_limiter.py`)

One category's bucket, as a list of issue timestamps in `Int` microsecond
ticks, oldest first (the `deque(maxlen=100)`).  An `acquire` call is driven by
two clock readings: `tNow`, the `datetime.now()` at entry, and `tWake`, the
`datetime.now()` re-read after the `asyncio.sleep(wait_time)` (ignored on
paths that do not sleep).  `asyncio.sleep` guarantees only
`tWake ≥ tNow + wait_time`. -/

/-- One second, in microsecond ticks. -/
def oneSecond : Int := 1000000

/-- The clock readings driving one `acquire` call. -/
structure AcqEvent where
  tNow : Int
  tWake : Int
deriving DecidableEq

/-- The eviction loop `while history and history[0] < one_second_ago:
history.popleft()` — drop leading timestamps strictly older than one second
before `now`. -/
def evictOld (now : Int) : List Int → List Int
  | [] => []
  | t :: rest => if t < now - oneSecond then evictOld now rest else t :: rest

/-- Embeds `deque(maxlen=100).append`: when full, the oldest entry is silently
dropped from the left. -/
def dequeAppend (h : List Int) (t : Int) : List Int :=
  if 100 < (h ++ [t]).length then (h ++ [t]).drop ((h ++ [t]).length - 100)
  else h ++ [t]

/-- One `RateLimiter.acquire` call on a single category with per-second limit
`limit`: evict, then if the window is full compute
`wait_time = 1.0 - (now - oldest)`; when positive, sleep (waking at `tWake`)
and re-evict; finally record the current clock reading.  Returns the recorded
issue time and the new history.  (The `h1 = []` arm of the full branch is
unreachable for `limit ≥ 1`; in Python it would index an empty deque.) -/
def acquireStep (limit : Nat) (hist : List Int) (e : AcqEvent) :
    Int × List Int :=
  let h1 := evictOld e.tNow hist
  if limit ≤ h1.length then
    match h1 with
    | [] => (e.tNow, dequeAppend h1 e.tNow)
    | oldest :: _ =>
      let waitTime := oneSecond - (e.tNow - oldest)
      if 0 < waitTime then
        let h2 := evictOld e.tWake h1
        (e.tWake, dequeAppend h2 e.tWake)
      else (e.tNow, dequeAppend h1 e.tNow)
  else (e.tNow, dequeAppend h1 e.tNow)

/-- Run a sequence of `acquire` calls, collecting the recorded issue times:
returns the final history and the full trace of issues. -/
def runLimiter (limit : Nat) : List Int → List Int → List AcqEvent →
    List Int × List Int
  | hist, trace, [] => (hist, trace)
  | hist, trace, e :: es =>
    let r := acquireStep limit hist e
    runLimiter limit r.2 (trace ++ [r.1]) es

/-- What the runtime guarantees about one event: nothing beyond
`tWake ≥ tNow + wait_time` when the call sleeps. -/
def eventWake (limit : Nat) (hist : List Int) (e : AcqEvent) : Bool :=
  let h1 := evictOld e.tNow hist
  if limit ≤ h1.length then
    match h1 with
    | [] => true
    | oldest :: _ =>
      let waitTime := oneSecond - (e.tNow - oldest)
      if 0 < waitTime then decide (e.tNow + waitTime ≤ e.tWake) else true
  else true

/-- A schedule of `acquire` calls consistent with the runtime: the clock never
goes backwards between the last recorded reading and the next entry, and every
sleep lasts at least the requested `wait_time`. -/
def validRun (limit : Nat) : List Int → Int → List AcqEvent → Bool
  | _, _, [] => true
  | hist, clock, e :: es =>
    decide (clock ≤ e.tNow) && eventWake limit hist e &&
    validRun limit (acquireStep limit hist e).2 (acquireStep limit hist e).1 es

/-- The extra separation conditions under which the window bound can be
proved: when a call finds the window full, its final clock reading must not be
exactly `oldest + 1s` — a sleep must overshoot the deadline strictly
(`oldest + 1s < tWake`), and a full window with `wait_time ≤ 0` (that is,
`tNow = oldest + 1s` exactly, since eviction already removed anything older)
must not occur.  The degenerate `limit = 0` full-empty-window case is also
excluded. -/
def eventStrict (limit : Nat) (hist : List Int) (e : AcqEvent) : Bool :=
  let h1 := evictOld e.tNow hist
  if limit ≤ h1.length then
    match h1 with
    | [] => false
    | oldest :: _ =>
      if 0 < oneSecond - (e.tNow - oldest) then
        decide (oldest + oneSecond < e.tWake)
      else false
  else true

/-- A schedule that is both runtime-consistent and boundary-separated. -/
def strictRun (limit : Nat) : List Int → Int → List AcqEvent → Bool
  | _, _, [] => true
  | hist, clock, e :: es =>
    decide (clock ≤ e.tNow) && eventWake limit hist e &&
    eventStrict limit hist e &&
    strictRun limit (acquireStep limit hist e).2 (acquireStep limit hist e).1 es

/-- Number of issued tokens whose timestamps lie in the closed one-second
window starting at `t`. -/
def windowCount (trace : List Int) (t : Int) : Nat :=
  (trace.filter (fun ts => decide (t ≤ ts) && decide (ts ≤ t + oneSecond))).length

/-- The invariant tying a bucket history to the full issue trace and the last
clock reading: evicted issues are strictly older than one second before the
last reading, everything issued is no later than it, the live window holds at
most `limit` entries, the trace is chronological, and every closed one-second
window of the trace holds at most `limit` issues. -/
def HistInv (limit : Nat) (hist trace : List Int) (clock : Int) : Prop :=
  (∃ dropped, trace = dropped ++ hist ∧
    ∀ ts ∈ dropped, ts < clock - oneSecond) ∧
  (∀ ts ∈ trace, ts ≤ clock) ∧
  hist.length ≤ limit ∧
  List.Sorted (· ≤ ·) trace ∧
  ∀ t : Int, windowCount trace t ≤ limit

/-- The concrete schedule refuting the sliding-window bound for
`limit = 1`: an acquire at tick 0, then two acquires whose entry clock reads
exactly one second later.  Eviction keeps the tick-0 entry (it is not strictly
older than one second), `wait_time = 0` skips the sleep, and both calls record
immediately. -/
def boundaryEvents : List AcqEvent :=
  [⟨0, 0⟩, ⟨oneSecond, 0⟩, ⟨oneSecond, 0⟩]

/-! ## GTT store (`src/trader/gtt/storage.py`) -/

/-- One row of the `gtt_orders` table, with the full schema including the
`trigger_ltp` and `notes` columns. -/
structure GTTRow where
  id : Nat
  symbol : String
  exchange : String
  trigger_price : ℚ
  order_type : String
  action : String
  quantity : Int
  limit_price : Option ℚ
  status : String
  created_at : Option Int
  triggered_at : Option Int
  completed_at : Option Int
  order_id : Option String
  error_message : Option String
  trigger_ltp : Option ℚ
  notes : Option String
deriving DecidableEq

/-- The table, ordered by insertion (rowid). -/
abbrev GTTTable := List GTTRow

/-- The `models.GTTOrder` record re-built by `GTTStorage._row_to_gtt`.  It has
no `trigger_ltp` and no `notes` field. -/
structure GTTRecord where
  id : Option Nat
  symbol : String
  exchange : String
  trigger_price : ℚ
  order_type : String
  action : String
  quantity : Int
  limit_price : Option ℚ
  status : String
  created_at : Option Int
  triggered_at : Option Int
  completed_at : Option Int
  order_id : Option String
  error_message : Option String
deriving DecidableEq

/-- Embeds `GTTStorage._row_to_gtt`: copy the listed columns; the `trigger_ltp` and
`notes` columns of the row are not read. -/
def rowToGtt (r : GTTRow) : GTTRecord :=
  { id := some r.id
    symbol := r.symbol
    exchange := r.exchange
    trigger_price := r.trigger_price
    order_type := r.order_type
    action := r.action
    quantity := r.quantity
    limit_price := r.limit_price
    status := r.status
    created_at := r.created_at
    triggered_at := r.triggered_at
    completed_at := r.completed_at
    order_id := r.order_id
    error_message := r.error_message }

/-- Store-level errors: `GTTNotFoundError` and the generic `GTTError` raised
by `cancel_gtt` on a non-ACTIVE status. -/
inductive GTTStoreError
  | notFound
  | cannotCancel
deriving DecidableEq

/-- Embeds `GTTStorage.create_gtt`: insert a fresh ACTIVE row (with the `notes`
argument stored in the `notes` column) and return the new table and row. -/
def createGtt (tbl : GTTTable) (newId : Nat) (now : Int)
    (symbol exchange : String) (trigger_price : ℚ) (order_type action : String)
    (quantity : Int) (limit_price : Option ℚ) (notes : Option String) :
    GTTTable × GTTRow :=
  let r : GTTRow :=
    { id := newId, symbol := symbol, exchange := exchange,
      trigger_price := trigger_price, order_type := order_type,
      action := action, quantity := quantity, limit_price := limit_price,
      status := "ACTIVE", created_at := some now, triggered_at := none,
      completed_at := none, order_id := none, error_message := none,
      trigger_ltp := none, notes := notes }
  (tbl ++ [r], r)

/-- Embeds `GTTStorage.get_gtt`: first row with the id, converted, else NotFound. -/
def getGtt (tbl : GTTTable) (gttId : Nat) : Except GTTStoreError GTTRecord :=
  match tbl.find? (fun r => r.id = gttId) with
  | some r => .ok (rowToGtt r)
  | none => .error .notFound

/-- Embeds `GTTStorage.get_active_gtts`: all ACTIVE rows, oldest `created_at` first
(the table is kept in insertion order and `created_at` is assigned from a
monotone clock, so the stored order realises `ORDER BY created_at ASC`). -/
def getActiveGtts (tbl : GTTTable) : List GTTRecord :=
  (tbl.filter (fun r => r.status = "ACTIVE")).map rowToGtt

/-- Embeds `GTTStorage.get_gtts_by_symbol` (filters only; the `created_at DESC`
ordering is the reverse of insertion order). -/
def getGttsBySymbol (tbl : GTTTable) (symbol : String)
    (exchange : Option String) (status : Option String) : List GTTRecord :=
  ((tbl.filter (fun r =>
      r.symbol = symbol ∧
      (∀ e ∈ exchange, r.exchange = e) ∧
      (∀ s ∈ status, r.status = s))).map rowToGtt).reverse

/-- Embeds `GTTStorage.get_all_gtts`. -/
def getAllGtts (tbl : GTTTable) (limit : Option Nat) (status : Option String) :
    List GTTRecord :=
  let rows := (tbl.filter (fun r => ∀ s ∈ status, r.status = s)).reverse
  ((match limit with | some n => rows.take n | none => rows).map rowToGtt)

/-- The per-row effect of `update_gtt_status`'s dynamically built UPDATE:
set `status`; stamp `triggered_at` on TRIGGERED and `completed_at` on
COMPLETED / FAILED / CANCELLED; set `order_id` and `error_message` only when
truthy (non-`None`, non-empty); set `trigger_ltp` whenever it `is not None`. -/
def updateRow (now : Int) (status : String) (order_id error_message : Option String)
    (trigger_ltp : Option ℚ) (r : GTTRow) : GTTRow :=
  let r1 := { r with status := status }
  let r2 :=
    if status = "TRIGGERED" then { r1 with triggered_at := some now }
    else if status = "COMPLETED" ∨ status = "FAILED" ∨ status = "CANCELLED" then
      { r1 with completed_at := some now }
    else r1
  let r3 := if order_id.getD "" ≠ "" then { r2 with order_id := order_id }
            else r2
  let r4 := if error_message.getD "" ≠ "" then
              { r3 with error_message := error_message }
            else r3
  match trigger_ltp with
  | some v => { r4 with trigger_ltp := some v }
  | none => r4

/-- Embeds `GTTStorage.update_gtt_status`: apply the UPDATE to every row matching the
id; `NotFound` when `rowcount == 0`; on success re-read and convert the row.
No check of the previous status is made. -/
def updateGttStatus (tbl : GTTTable) (now : Int) (gttId : Nat) (status : String)
    (order_id error_message : Option String) (trigger_ltp : Option ℚ) :
    Except GTTStoreError (GTTTable × GTTRecord) :=
  if (tbl.filter (fun r => r.id = gttId)).length = 0 then .error .notFound
  else
    let tbl2 := tbl.map (fun r =>
      if r.id = gttId then updateRow now status order_id error_message trigger_ltp r
      else r)
    match tbl2.find? (fun r => r.id = gttId) with
    | some r => .ok (tbl2, rowToGtt r)
    | none => .error .notFound

/-- Embeds `GTTStorage.cancel_gtt`: read the record, reject unless its status is
ACTIVE, else delegate to `update_gtt_status(id, CANCELLED)`. -/
def cancelGtt (tbl : GTTTable) (now : Int) (gttId : Nat) :
    Except GTTStoreError (GTTTable × GTTRecord) :=
  match getGtt tbl gttId with
  | .error e => .error e
  | .ok g =>
    if g.status ≠ "ACTIVE" then .error .cannotCancel
    else updateGttStatus tbl now gttId "CANCELLED" none none none

/-- Count of rows currently in status `s` (`SELECT COUNT(*) ... GROUP BY
status`, looked up per status). -/
def countStatus (tbl : GTTTable) (s : String) : Nat :=
  (tbl.filter (fun r => r.status = s)).length

/-- The record built by `GTTStorage.get_statistics`. -/
structure GTTStatistics where
  total : Nat
  byStatus : List (String × Nat)
  active : Nat
  triggered : Nat
  completed : Nat
  cancelled : Nat
  failed : Nat
  recentCreated : Nat
  recentTriggered : Nat
deriving DecidableEq

/-- One day, in the seconds-resolution ticks used for row timestamps. -/
def oneDay : Int := 86400

/-- Embeds `GTTStorage.get_statistics`: status counts via the GROUP BY dictionary
(absent statuses default to 0 through `.get(status, 0)`), the total, and the
24-hour activity slice `created_at >= datetime('now','-1 day')` /
`triggered_at >= datetime('now','-1 day')` (SQL comparisons against NULL are
false). -/
def getStatistics (tbl : GTTTable) (now : Int) : GTTStatistics :=
  let statusCounts : List (String × Nat) :=
    ((tbl.map (fun r => r.status)).dedup).map (fun s => (s, countStatus tbl s))
  let get := fun (s : String) => ((statusCounts.lookup s).getD 0)
  { total := tbl.length
    byStatus := statusCounts
    active := get "ACTIVE"
    triggered := get "TRIGGERED"
    completed := get "COMPLETED"
    cancelled := get "CANCELLED"
    failed := get "FAILED"
    recentCreated :=
      (tbl.filter (fun r => r.created_at.any (fun t => now - oneDay ≤ t))).length
    recentTriggered :=
      (tbl.filter (fun r => r.triggered_at.any (fun t => now - oneDay ≤ t))).length }

/-- The keys of the dictionary literal `get_statistics` returns (with
`recent_24h` a nested dictionary holding `created` and `triggered`). -/
def getStatisticsKeys : List String :=
  ["total", "by_status", "active", "triggered", "completed", "cancelled",
   "failed", "recent_24h"]

/-- Erase the two columns `_row_to_gtt` never reads. -/
def eraseHidden (r : GTTRow) : GTTRow :=
  { r with trigger_ltp := none, notes := none }

/-- The GTT status lifecycle graph as the specification states it:
`ACTIVE → TRIGGERED | CANCELLED | FAILED`, `TRIGGERED → COMPLETED | FAILED`,
and the manual retry `FAILED → ACTIVE`; no other transition is allowed.
(Spec-side definition, for comparison with the store's behaviour.) -/
def specAllowedTransition (fromStatus toStatus : String) : Bool :=
  (fromStatus = "ACTIVE" &&
    (toStatus = "TRIGGERED" || toStatus = "CANCELLED" || toStatus = "FAILED")) ||
  (fromStatus = "TRIGGERED" && (toStatus = "COMPLETED" || toStatus = "FAILED")) ||
  (fromStatus = "FAILED" && toStatus = "ACTIVE")

/-! ## Theorems -/

/-- Claim C1. If `validate_order` approves, every hard limit of the pipeline
holds against the Risk Gate state the checks ran against — the state after
the step-1 day rollover, which is also the state in which the call returns:
the order value is within `MAX_SINGLE_ORDER_VALUE`, the daily order count is
strictly below `MAX_DAILY_ORDERS`, the hard daily-loss limit is not breached,
and neither the segment nor the product is forbidden. -/
theorem validate_order_approved_implies_hard_limits
    (lim : RiskLimits) (today : Int) (st : RiskState) (symbol : String)
    (quantity : Int) (price : ℚ) (transaction_type order_type exchange
      product segment : String)
    (h : (validateOrder lim today st symbol quantity price transaction_type
      order_type exchange product segment).1.approved = true) :
    (quantity : ℚ) * price ≤ lim.maxSingleOrderValue ∧
    (checkDayRollover today st).dailyOrderCount < lim.maxDailyOrders ∧
    ¬((checkDayRollover today st).dailyPnl < 0 ∧
      lim.maxDailyLossHard ≤ |(checkDayRollover today st).dailyPnl|) ∧
    segment ∉ lim.forbiddenSegments ∧
    product ∉ lim.forbiddenProducts := by
  simp only [validateOrder] at h
  split at h
  · simp at h
  split at h
  · simp at h
  split at h
  · simp at h
  split at h
  · simp at h
  split at h
  · simp at h
  split at h
  · simp at h
  split at h
  · simp at h
  split at h
  · simp at h
  rename_i h1 h2 h3 h4 h5 h6 h7 h8
  exact ⟨le_of_not_lt h1, Nat.lt_of_not_le h3, h5, h7, h8⟩

/-- Witness for `validate_order_approved_implies_hard_limits` at a concrete
approved order. -/
theorem validate_order_approved_implies_hard_limits_witness :
    (1 : ℚ) * 100 ≤ 10000 ∧
    (checkDayRollover 20000
      ⟨some 20000, 0, 0, [], [], 0⟩).dailyOrderCount < 15 ∧
    ¬((checkDayRollover 20000 ⟨some 20000, 0, 0, [], [], 0⟩).dailyPnl < 0 ∧
      (5000 : ℚ) ≤ |(checkDayRollover 20000
        ⟨some 20000, 0, 0, [], [], 0⟩).dailyPnl|) ∧
    "CASH" ∉ (["FNO"] : List String) ∧
    "CNC" ∉ (["MIS", "NRML"] : List String) :=
  validate_order_approved_implies_hard_limits
    ⟨50000, 5000, 2000, 3, 10000, 15, 5000, ["FNO"], ["MIS", "NRML"]⟩
    20000 ⟨some 20000, 0, 0, [], [], 0⟩ "RELIANCE" 1 100 "BUY" "LIMIT" "NSE"
    "CNC" "CASH" (by norm_num [validateOrder, checkDayRollover]; decide)

/-- Claim C7. The day rollover at the head of every Risk Gate entry point:
when the stored day differs from today, `_check_day_rollover` resets
`daily_pnl`, `daily_order_count` and `daily_orders` and stamps today,
leaving `open_positions` and the position count untouched; a second rollover
on the same date is the identity (idempotence); `validate_order`'s post-call
state is exactly the rolled state, and `record_order` appends to the rolled
state. -/
theorem day_rollover_resets_once_and_is_idempotent
    (lim : RiskLimits) (today : Int) (st : RiskState) (o : Order)
    (symbol : String) (quantity : Int) (price : ℚ)
    (transaction_type order_type exchange product segment : String)
    (h : st.currentDay ≠ some today) :
    checkDayRollover today st =
      { st with currentDay := some today, dailyPnl := 0, dailyOrderCount := 0,
                dailyOrders := [] } ∧
    (checkDayRollover today st).openPositions = st.openPositions ∧
    (checkDayRollover today st).positionCount = st.positionCount ∧
    (checkDayRollover today st).currentDay = some today ∧
    checkDayRollover today (checkDayRollover today st) =
      checkDayRollover today st ∧
    (validateOrder lim today st symbol quantity price transaction_type
      order_type exchange product segment).2 = checkDayRollover today st ∧
    recordOrder today st o =
      { checkDayRollover today st with dailyOrders := [o],
                                       dailyOrderCount := 1 } := by
  have h1 : checkDayRollover today st =
      { st with currentDay := some today, dailyPnl := 0, dailyOrderCount := 0,
                dailyOrders := [] } := by
    simp [checkDayRollover, h]
  refine ⟨h1, by rw [h1], by rw [h1], by rw [h1], ?_, rfl, ?_⟩
  · rw [h1]
    simp [checkDayRollover]
  · simp [recordOrder, h1]

/-- Witness for `day_rollover_resets_once_and_is_idempotent` on a state one
day behind. -/
theorem day_rollover_resets_once_and_is_idempotent_witness :
    checkDayRollover 20001
      ⟨some 20000, -500, 10, [], ["RELIANCE"], 1⟩ =
      { currentDay := some 20001, dailyPnl := 0, dailyOrderCount := 0,
        dailyOrders := [], openPositions := ["RELIANCE"],
        positionCount := 1 } ∧
    (checkDayRollover 20001
      ⟨some 20000, -500, 10, [], ["RELIANCE"], 1⟩).openPositions =
      ["RELIANCE"] ∧
    (checkDayRollover 20001
      ⟨some 20000, -500, 10, [], ["RELIANCE"], 1⟩).positionCount = 1 ∧
    (checkDayRollover 20001
      ⟨some 20000, -500, 10, [], ["RELIANCE"], 1⟩).currentDay = some 20001 ∧
    checkDayRollover 20001 (checkDayRollover 20001
      ⟨some 20000, -500, 10, [], ["RELIANCE"], 1⟩) =
      checkDayRollover 20001 ⟨some 20000, -500, 10, [], ["RELIANCE"], 1⟩ ∧
    (validateOrder ⟨50000, 5000, 2000, 3, 10000, 15, 5000, [], []⟩ 20001
      ⟨some 20000, -500, 10, [], ["RELIANCE"], 1⟩ "TCS" 1 100 "BUY" "LIMIT"
      "NSE" "CNC" "CASH").2 =
      checkDayRollover 20001 ⟨some 20000, -500, 10, [], ["RELIANCE"], 1⟩ ∧
    recordOrder 20001 ⟨some 20000, -500, 10, [], ["RELIANCE"], 1⟩
      ⟨"OID1", "TCS", some "NSE", 1, some 100, none, "BUY", "LIMIT",
        some "CNC", some "PENDING", some 0, none, 0, none⟩ =
      { checkDayRollover 20001
          ⟨some 20000, -500, 10, [], ["RELIANCE"], 1⟩ with
        dailyOrders := [⟨"OID1", "TCS", some "NSE", 1, some 100, none, "BUY",
          "LIMIT", some "CNC", some "PENDING", some 0, none, 0, none⟩],
        dailyOrderCount := 1 } :=
  day_rollover_resets_once_and_is_idempotent
    ⟨50000, 5000, 2000, 3, 10000, 15, 5000, [], []⟩ 20001
    ⟨some 20000, -500, 10, [], ["RELIANCE"], 1⟩
    ⟨"OID1", "TCS", some "NSE", 1, some 100, none, "BUY", "LIMIT", some "CNC",
      some "PENDING", some 0, none, 0, none⟩
    "TCS" 1 100 "BUY" "LIMIT" "NSE" "CNC" "CASH" (by decide)

/-- Claim C3. `deactivate` succeeds — returns `True` and clears the lockout —
exactly when the token equals the configured approval code and at least
`cooldown_minutes` have elapsed since activation; every failing call leaves
`active`, `reason` and `activated_at` untouched and, while the switch is
ACTIVE, raises `KillSwitchActive` with the blocking reason (bad token, or the
remaining cooldown); on an INACTIVE switch the call just returns `False`. -/
theorem kill_switch_deactivate_gate (code : String) (cd now t : Int)
    (st : KSState) (tok : String) :
    (st.active = false → ksDeactivate code cd now st tok = (.ok false, st)) ∧
    (st.active = true → st.activatedAt = some t →
      (((ksDeactivate code cd now st tok).1 = .ok true) ↔
        (tok = code ∧ cd * 60 ≤ now - t)) ∧
      (tok = code → cd * 60 ≤ now - t →
        (ksDeactivate code cd now st tok).2 =
          { st with active := false, reason := none, activatedAt := none }) ∧
      (tok ≠ code →
        ksDeactivate code cd now st tok =
          (.error (.invalidCode (some t)), st)) ∧
      (tok = code → now - t < cd * 60 →
        ksDeactivate code cd now st tok =
          (.error (.cooldownNotElapsed (cd * 60 - (now - t)) (some t)), st))) := by
  constructor
  · intro ha
    simp [ksDeactivate, ha]
  · intro ha hat
    by_cases htok : tok = code
    · by_cases htime : now - t < cd * 60
      · refine ⟨?_, ?_, fun hc => absurd htok hc, ?_⟩
        · simp [ksDeactivate, ha, hat, htok, htime]
        · intro _ hge
          omega
        · intro _ _
          simp [ksDeactivate, ha, hat, htok, htime]
      · refine ⟨?_, ?_, fun hc => absurd htok hc, fun _ hlt => absurd hlt htime⟩
        · simp [ksDeactivate, ha, hat, htok, htime]
          omega
        · intro _ _
          simp [ksDeactivate, ha, hat, htok, htime]
    · refine ⟨?_, fun hc => absurd hc htok, ?_, fun hc => absurd hc htok⟩
      · simp [ksDeactivate, ha, htok]
      · intro _
        simp [ksDeactivate, ha, hat, htok]

/-- Witness for `kill_switch_deactivate_gate`: an active switch, activated at
time 0, deactivated with the right code after the 3600-second cooldown. -/
theorem kill_switch_deactivate_gate_witness :
    ((⟨true, some "test", some 0, 1⟩ : KSState).active = false →
      ksDeactivate "RESUME_TRADING_2024" 60 3700
        ⟨true, some "test", some 0, 1⟩ "RESUME_TRADING_2024" =
        (.ok false, ⟨true, some "test", some 0, 1⟩)) ∧
    ((⟨true, some "test", some 0, 1⟩ : KSState).active = true →
      (⟨true, some "test", some 0, 1⟩ : KSState).activatedAt = some 0 →
      (((ksDeactivate "RESUME_TRADING_2024" 60 3700
          ⟨true, some "test", some 0, 1⟩ "RESUME_TRADING_2024").1 = .ok true) ↔
        ("RESUME_TRADING_2024" = "RESUME_TRADING_2024" ∧
          (60 : Int) * 60 ≤ 3700 - 0)) ∧
      ("RESUME_TRADING_2024" = "RESUME_TRADING_2024" →
        (60 : Int) * 60 ≤ 3700 - 0 →
        (ksDeactivate "RESUME_TRADING_2024" 60 3700
          ⟨true, some "test", some 0, 1⟩ "RESUME_TRADING_2024").2 =
          { (⟨true, some "test", some 0, 1⟩ : KSState) with
              active := false, reason := none, activatedAt := none }) ∧
      ("RESUME_TRADING_2024" ≠ "RESUME_TRADING_2024" →
        ksDeactivate "RESUME_TRADING_2024" 60 3700
          ⟨true, some "test", some 0, 1⟩ "RESUME_TRADING_2024" =
          (.error (.invalidCode (some 0)), ⟨true, some "test", some 0, 1⟩)) ∧
      ("RESUME_TRADING_2024" = "RESUME_TRADING_2024" →
        (3700 : Int) - 0 < 60 * 60 →
        ksDeactivate "RESUME_TRADING_2024" 60 3700
          ⟨true, some "test", some 0, 1⟩ "RESUME_TRADING_2024" =
          (.error (.cooldownNotElapsed (60 * 60 - (3700 - 0)) (some 0)),
            ⟨true, some "test", some 0, 1⟩))) :=
  kill_switch_deactivate_gate "RESUME_TRADING_2024" 60 3700 0
    ⟨true, some "test", some 0, 1⟩ "RESUME_TRADING_2024"

/-- Same-outcome congruence used below: the retry loop only looks at the
first `remaining + 1` attempt outcomes. -/
theorem retryFrom_congr (f g : Nat → Except CallErr Nat) :
    ∀ (n a : Nat), (∀ i, a ≤ i → i ≤ a + n → f i = g i) →
      retryFrom f a n = retryFrom g a n := by
  intro n
  induction n with
  | zero =>
    intro a h
    simp [retryFrom, h a le_rfl (by omega)]
  | succ m ih =>
    intro a h
    have h0 : f a = g a := h a le_rfl (by omega)
    simp only [retryFrom, h0]
    cases g a with
    | ok v => rfl
    | error e =>
      by_cases hnr : e.noRetry
      · simp [hnr]
      · simp only [hnr, if_false, Bool.false_eq_true]
        rw [ih (a + 1) (fun i h1 h2 => h i (by omega) (by omega))]

/-- Claim C5. `_call_with_retry(max_retries=3, backoff_factor=1.5)`:
(1) the loop inspects at most the first three attempt outcomes;
(2) if the first `k ≤ 2` attempts fail retriably and attempt `k` raises
`InvalidOrderError` or `AuthenticationError`, that error is raised
immediately — no further attempt, and no sleep besides the `1.5 ^ i` backoffs
already taken between the earlier attempts — in particular a first-attempt
validation or auth error propagates with no retry and no sleep at all;
(3) if all three attempts fail retriably, the last error is raised after
backoffs `1.5 ^ 0` and `1.5 ^ 1`;
(4) if attempt `k ≤ 2` succeeds after `k` retriable failures, its value is
returned with exactly the `k` backoffs `1.5 ^ 0 … 1.5 ^ (k-1)`. -/
theorem call_with_retry_policy (f g : Nat → Except CallErr Nat) (k : Nat)
    (e : CallErr) (v : Nat) :
    ((∀ i, i < 3 → f i = g i) → callWithRetry f = callWithRetry g) ∧
    (k ≤ 2 → (∀ i, i < k → retriable (f i) = true) → f k = .error e →
      e.noRetry = true →
      callWithRetry f =
        (.error e, (List.range k).map (fun i => ((3 : ℚ) / 2) ^ i))) ∧
    ((∀ i, i < 3 → retriable (f i) = true) →
      callWithRetry f = (f 2, [((3 : ℚ) / 2) ^ 0, ((3 : ℚ) / 2) ^ 1])) ∧
    (k ≤ 2 → (∀ i, i < k → retriable (f i) = true) → f k = .ok v →
      callWithRetry f =
        (.ok v, (List.range k).map (fun i => ((3 : ℚ) / 2) ^ i))) := by
  have extract : ∀ (i : Nat), retriable (f i) = true →
      ∃ err : CallErr, f i = .error err ∧ err.noRetry = false := by
    intro i hr
    cases hfi : f i with
    | ok w => rw [hfi] at hr; simp [retriable] at hr
    | error err =>
      rw [hfi] at hr
      simp only [retriable, Bool.not_eq_true'] at hr
      exact ⟨err, rfl, hr⟩
  refine ⟨?_, ?_, ?_, ?_⟩
  · intro h
    exact retryFrom_congr f g 2 0 (fun i h1 h2 => h i (by omega))
  · intro hk hprev hfk hnr
    interval_cases k
    · simp [callWithRetry, retryFrom, hfk, hnr]
    · obtain ⟨e0, hf0, hnr0⟩ := extract 0 (hprev 0 (by omega))
      simp [callWithRetry, retryFrom, hf0, hnr0, hfk, hnr, List.range_succ]
    · obtain ⟨e0, hf0, hnr0⟩ := extract 0 (hprev 0 (by omega))
      obtain ⟨e1, hf1, hnr1⟩ := extract 1 (hprev 1 (by omega))
      simp [callWithRetry, retryFrom, hf0, hnr0, hf1, hnr1, hfk, hnr,
        List.range_succ]
  · intro hall
    obtain ⟨e0, hf0, hnr0⟩ := extract 0 (hall 0 (by omega))
    obtain ⟨e1, hf1, hnr1⟩ := extract 1 (hall 1 (by omega))
    simp [callWithRetry, retryFrom, hf0, hnr0, hf1, hnr1]
  · intro hk hprev hfk
    interval_cases k
    · simp [callWithRetry, retryFrom, hfk]
    · obtain ⟨e0, hf0, hnr0⟩ := extract 0 (hprev 0 (by omega))
      simp [callWithRetry, retryFrom, hf0, hnr0, hfk, List.range_succ]
    · obtain ⟨e0, hf0, hnr0⟩ := extract 0 (hprev 0 (by omega))
      obtain ⟨e1, hf1, hnr1⟩ := extract 1 (hprev 1 (by omega))
      simp [callWithRetry, retryFrom, hf0, hnr0, hf1, hnr1, hfk,
        List.range_succ]

/-- Witness for `call_with_retry_policy`: two network-style failures followed
by a success return the success value after backoffs `1` and `3/2`; an
immediate auth failure propagates with no sleep. -/
theorem call_with_retry_policy_witness :
    ((∀ i, i < 3 →
        (fun n => if n = 0 then (.error (.other 7) : Except CallErr Nat)
          else if n = 1 then .error (.other 8) else .ok 42) i =
        (fun n => if n = 0 then (.error (.other 7) : Except CallErr Nat)
          else if n = 1 then .error (.other 8) else .ok 42) i) →
      callWithRetry (fun n => if n = 0 then .error (.other 7)
        else if n = 1 then .error (.other 8) else .ok 42) =
      callWithRetry (fun n => if n = 0 then .error (.other 7)
        else if n = 1 then .error (.other 8) else .ok 42)) ∧
    ((2 : Nat) ≤ 2 →
      (∀ i, i < 2 → retriable ((fun n =>
        if n = 0 then (.error (.other 7) : Except CallErr Nat)
        else if n = 1 then .error (.other 8) else .ok 42) i) = true) →
      (fun n => if n = 0 then (.error (.other 7) : Except CallErr Nat)
        else if n = 1 then .error (.other 8) else .ok 42) 2 = .error .auth →
      CallErr.noRetry .auth = true →
      callWithRetry (fun n => if n = 0 then .error (.other 7)
        else if n = 1 then .error (.other 8) else .ok 42) =
        (.error .auth, (List.range 2).map (fun i => ((3 : ℚ) / 2) ^ i))) ∧
    ((∀ i, i < 3 → retriable ((fun n =>
        if n = 0 then (.error (.other 7) : Except CallErr Nat)
        else if n = 1 then .error (.other 8) else .ok 42) i) = true) →
      callWithRetry (fun n => if n = 0 then .error (.other 7)
        else if n = 1 then .error (.other 8) else .ok 42) =
        ((fun n => if n = 0 then (.error (.other 7) : Except CallErr Nat)
          else if n = 1 then .error (.other 8) else .ok 42) 2,
          [((3 : ℚ) / 2) ^ 0, ((3 : ℚ) / 2) ^ 1])) ∧
    ((2 : Nat) ≤ 2 →
      (∀ i, i < 2 → retriable ((fun n =>
        if n = 0 then (.error (.other 7) : Except CallErr Nat)
        else if n = 1 then .error (.other 8) else .ok 42) i) = true) →
      (fun n => if n = 0 then (.error (.other 7) : Except CallErr Nat)
        else if n = 1 then .error (.other 8) else .ok 42) 2 = .ok 42 →
      callWithRetry (fun n => if n = 0 then .error (.other 7)
        else if n = 1 then .error (.other 8) else .ok 42) =
        (.ok 42, (List.range 2).map (fun i => ((3 : ℚ) / 2) ^ i))) :=
  call_with_retry_policy
    (fun n => if n = 0 then .error (.other 7)
      else if n = 1 then .error (.other 8) else .ok 42)
    (fun n => if n = 0 then .error (.other 7)
      else if n = 1 then .error (.other 8) else .ok 42) 2 .auth 42

/-- Embeds `_validate_order_params` never raises an `order_value` error — that field
tag belongs only to the hard-limit gate in `place_order`. -/
theorem validateOrderParams_ne_order_value
    (fp fs : List String) (symbol : String) (quantity : Int)
    (order_type : String) (price trigger_price : Option ℚ)
    (product segment : String) :
    validateOrderParams fp fs symbol quantity order_type price trigger_price
      product segment ≠ .error (.invalidOrder "order_value") := by
  unfold validateOrderParams
  split
  · intro hc
    simp_all
  split
  · intro hc
    simp_all
  split
  · intro hc
    simp_all
  split
  · intro hc
    simp_all
  split
  · intro hc
    simp_all
  split
  · intro hc
    simp_all
  · intro hc
    simp_all

/-- A passing `_validate_order_params` guarantees a positive quantity. -/
theorem validateOrderParams_pos_quantity
    (fp fs : List String) (symbol : String) (quantity : Int)
    (order_type : String) (price trigger_price : Option ℚ)
    (product segment : String)
    (h : validateOrderParams fp fs symbol quantity order_type price
      trigger_price product segment = .ok ()) :
    0 < quantity := by
  by_contra hq
  unfold validateOrderParams at h
  split at h
  · simp at h
  split at h
  · simp at h
  · rename_i hcond
    omega

/-- Claim C9. A MARKET order carries `price=None`, so the pre-network
single-order-value gate in `place_order` computes
`quantity * (price or 0) = 0`: whatever the quantity, the call is never
rejected with the `order_value` validation error (the gate constrains only
orders that carry a price). -/
theorem market_order_value_gate_vacuous (paperMode : Bool)
    (maxSingleOrderValue : ℚ) (fp fs : List String)
    (symbol exchange transaction_type : String) (quantity : Int)
    (order_type : String) (trigger_price : Option ℚ)
    (product segment nowStr : String) (now : Int)
    (hmax : 0 ≤ maxSingleOrderValue) :
    (quantity : ℚ) * ((none : Option ℚ).getD 0) = 0 ∧
    placeOrder paperMode maxSingleOrderValue fp fs symbol exchange
      transaction_type quantity order_type none trigger_price product segment
      nowStr now ≠ .error (.invalidOrder "order_value") := by
  refine ⟨by simp, ?_⟩
  unfold placeOrder
  cases hv : validateOrderParams fp fs symbol quantity order_type none
      trigger_price product segment with
  | error e =>
    intro hc
    simp only [] at hc
    have := validateOrderParams_ne_order_value fp fs symbol quantity
      order_type none trigger_price product segment
    rw [hv] at this
    exact this (by injection hc with h2; rw [h2])
  | ok u =>
    cases u
    have hval : ¬(maxSingleOrderValue < (quantity : ℚ) * ((none : Option ℚ).getD 0)) := by
      simp [hmax]
    simp only [hval, if_false]
    by_cases hp : paperMode
    · simp only [hp, if_true]
      split
      · intro hc
        simp at hc
      · intro hc
        simp at hc
    · simp only [hp, if_false]
      intro hc
      simp at hc

/-- Witness for `market_order_value_gate_vacuous`: a MARKET order for a
billion shares sails past the 10000-rupee value gate. -/
theorem market_order_value_gate_vacuous_witness :
    ((1000000000 : Int) : ℚ) * ((none : Option ℚ).getD 0) = 0 ∧
    placeOrder true 10000 [] [] "RELIANCE" "NSE" "BUY" 1000000000 "MARKET"
      none none "CNC" "CASH" "20240101120000" 0 ≠
      .error (.invalidOrder "order_value") :=
  market_order_value_gate_vacuous true 10000 [] [] "RELIANCE" "NSE" "BUY"
    1000000000 "MARKET" none "CNC" "CASH" "20240101120000" 0 (by norm_num)

/-- Claim C2, counterexample. A paper-mode MARKET order with the nonsensical
price `-1` passes `_validate_order_params` (which checks prices only for
LIMIT orders) and passes the hard-limit value gate (`quantity * (-1) ≤
10000`), yet no synthetic paper `Order` comes back: the pydantic `Order`
model rejects the negative price, so the call raises a model-validation
error instead of returning the promised `PAPER_…` order. -/
theorem paper_mode_negative_price_counterexample :
    validateOrderParams [] [] "RELIANCE" 1 "MARKET" (some (-1)) none "CNC"
      "CASH" = .ok () ∧
    ((1 : Int) : ℚ) * ((some (-1 : ℚ)).getD 0) ≤ 10000 ∧
    placeOrder true 10000 [] [] "RELIANCE" "NSE" "BUY" 1 "MARKET"
      (some (-1)) none "CNC" "CASH" "20240101120000" 0 =
      .error .modelValidation := by
  have hb : blankSymbol "RELIANCE" = false := by decide
  refine ⟨by decide, by norm_num, ?_⟩
  norm_num [placeOrder, validateOrderParams, paperOrder, Order.fieldsValid, hb]
  decide

/-- Claim C2, amended. In paper mode, every `place_order` call that passes
parameter validation, the hard-limit value gate, and the `Order` model's
field bounds (non-negative optional price and trigger price) performs no
side effect at all — no rate-limiter token, no broker SDK call — and returns
the synthetic order with id `PAPER_<timestamp>_<symbol>`, status `PENDING`,
`filled_quantity = 0` and message `PAPER MODE - Order simulated`. -/
theorem place_order_paper_mode_behavior (maxSingleOrderValue : ℚ)
    (fp fs : List String) (symbol exchange transaction_type : String)
    (quantity : Int) (order_type : String) (price trigger_price : Option ℚ)
    (product segment nowStr : String) (now : Int)
    (hval : validateOrderParams fp fs symbol quantity order_type price
      trigger_price product segment = .ok ())
    (hvalue : (quantity : ℚ) * price.getD 0 ≤ maxSingleOrderValue)
    (hp : ∀ p ∈ price, (0 : ℚ) ≤ p)
    (htp : ∀ p ∈ trigger_price, (0 : ℚ) ≤ p) :
    placeOrder true maxSingleOrderValue fp fs symbol exchange transaction_type
      quantity order_type price trigger_price product segment nowStr now =
      .ok (.paper (paperOrder symbol exchange transaction_type quantity
        order_type price trigger_price product nowStr now), []) ∧
    (paperOrder symbol exchange transaction_type quantity order_type price
      trigger_price product nowStr now).order_id =
      "PAPER_" ++ nowStr ++ "_" ++ symbol ∧
    (paperOrder symbol exchange transaction_type quantity order_type price
      trigger_price product nowStr now).status = some "PENDING" ∧
    (paperOrder symbol exchange transaction_type quantity order_type price
      trigger_price product nowStr now).filled_quantity = some 0 ∧
    (paperOrder symbol exchange transaction_type quantity order_type price
      trigger_price product nowStr now).message =
      some "PAPER MODE - Order simulated" := by
  have hq := validateOrderParams_pos_quantity fp fs symbol quantity order_type
    price trigger_price product segment hval
  have hfields : (paperOrder symbol exchange transaction_type quantity
      order_type price trigger_price product nowStr now).fieldsValid = true := by
    unfold Order.fieldsValid paperOrder
    simp only [Bool.and_eq_true, decide_eq_true_eq]
    refine ⟨⟨⟨⟨hq, ?_⟩, ?_⟩, rfl⟩, rfl⟩
    · cases price with
      | none => rfl
      | some p => simpa using hp p rfl
    · cases trigger_price with
      | none => rfl
      | some p => simpa using htp p rfl
  refine ⟨?_, rfl, rfl, rfl, rfl⟩
  unfold placeOrder
  rw [hval]
  simp [not_lt.mpr hvalue, hfields]

/-- Witness for `place_order_paper_mode_behavior` on a small LIMIT BUY. -/
theorem place_order_paper_mode_behavior_witness :
    placeOrder true 10000 [] [] "RELIANCE" "NSE" "BUY" 2 "LIMIT" (some 100)
      none "CNC" "CASH" "20240101120000" 0 =
      .ok (.paper (paperOrder "RELIANCE" "NSE" "BUY" 2 "LIMIT" (some 100)
        none "CNC" "20240101120000" 0), []) ∧
    (paperOrder "RELIANCE" "NSE" "BUY" 2 "LIMIT" (some 100) none "CNC"
      "20240101120000" 0).order_id = "PAPER_" ++ "20240101120000" ++ "_" ++
      "RELIANCE" ∧
    (paperOrder "RELIANCE" "NSE" "BUY" 2 "LIMIT" (some 100) none "CNC"
      "20240101120000" 0).status = some "PENDING" ∧
    (paperOrder "RELIANCE" "NSE" "BUY" 2 "LIMIT" (some 100) none "CNC"
      "20240101120000" 0).filled_quantity = some 0 ∧
    (paperOrder "RELIANCE" "NSE" "BUY" 2 "LIMIT" (some 100) none "CNC"
      "20240101120000" 0).message = some "PAPER MODE - Order simulated" :=
  place_order_paper_mode_behavior 10000 [] [] "RELIANCE" "NSE" "BUY" 2
    "LIMIT" (some 100) none "CNC" "CASH" "20240101120000" 0 (by decide)
    (by norm_num)
    (by
      intro p hmem
      simp only [Option.mem_def, Option.some.injEq] at hmem
      rw [← hmem]
      norm_num)
    (by simp)

/-- The UPDATE sets the requested status unconditionally. -/
theorem updateRow_status (now : Int) (s : String)
    (oid em : Option String) (ltp : Option ℚ) (r : GTTRow) :
    (updateRow now s oid em ltp r).status = s := by
  unfold updateRow
  repeat' split
  all_goals rfl

/-- The UPDATE never touches the primary key. -/
theorem updateRow_id (now : Int) (s : String)
    (oid em : Option String) (ltp : Option ℚ) (r : GTTRow) :
    (updateRow now s oid em ltp r).id = r.id := by
  unfold updateRow
  repeat' split
  all_goals rfl

/-- Claim C6, counterexample. The Store does not reject transitions outside the
lifecycle graph: the spec-side graph forbids `COMPLETED → ACTIVE`, yet
`update_gtt_status` happily moves a COMPLETED GTT back to ACTIVE — a terminal
state reverts without the FAILED-retry exception. -/
theorem update_gtt_status_accepts_forbidden_transition :
    specAllowedTransition "COMPLETED" "ACTIVE" = false ∧
    (updateGttStatus
        [⟨1, "RELIANCE", "NSE", 2500, "LIMIT", "BUY", 1, some 2490,
          "COMPLETED", some 0, some 10, some 20, some "OID9", none,
          some 2490, none⟩]
        30 1 "ACTIVE" none none none).toOption.map
      (fun p => p.2.status) = some "ACTIVE" := by
  constructor
  · decide
  · rfl

/-- Claim C6, amended. The only lifecycle guard at the Store boundary is in
`cancel_gtt`: it rejects unless the current status is ACTIVE and then moves
the GTT to CANCELLED.  `update_gtt_status` itself performs no transition
validation at all: for any stored GTT it applies any requested status (its
only failure is `NotFound`), so terminal states can revert. -/
theorem gtt_store_transition_enforcement (tbl : GTTTable) (now : Int)
    (gttId : Nat) (status : String) (oid em : Option String) (ltp : Option ℚ)
    (r : GTTRow)
    (hfind : tbl.find? (fun row => row.id = gttId) = some r) :
    (∃ t2, updateGttStatus tbl now gttId status oid em ltp =
      .ok (t2, rowToGtt (updateRow now status oid em ltp r))) ∧
    (rowToGtt (updateRow now status oid em ltp r)).status = status ∧
    (r.status ≠ "ACTIVE" → cancelGtt tbl now gttId = .error .cannotCancel) ∧
    (r.status = "ACTIVE" → ∃ t2 g, cancelGtt tbl now gttId = .ok (t2, g) ∧
      g.status = "CANCELLED") := by
  have hpr := List.find?_some hfind
  have hrid : r.id = gttId := by
    simpa using hpr
  have key : ∀ (s : String) (o e : Option String) (l : Option ℚ),
      ∃ t2, updateGttStatus tbl now gttId s o e l =
        .ok (t2, rowToGtt (updateRow now s o e l r)) := by
    intro s o e l
    have hmem := List.mem_of_find?_eq_some hfind
    have hmemf : r ∈ tbl.filter (fun row => row.id = gttId) :=
      List.mem_filter.mpr ⟨hmem, hpr⟩
    have hne : ¬((tbl.filter (fun row => row.id = gttId)).length = 0) := by
      intro h0
      rw [List.length_eq_zero] at h0
      rw [h0] at hmemf
      simp at hmemf
    have hcomp : ((fun row => decide (row.id = gttId)) ∘
        (fun row => if row.id = gttId then updateRow now s o e l row
          else row)) = (fun row : GTTRow => decide (row.id = gttId)) := by
      funext row
      by_cases hid : row.id = gttId
      · simp [hid, updateRow_id]
      · simp [hid]
    refine ⟨tbl.map (fun row => if row.id = gttId then
      updateRow now s o e l row else row), ?_⟩
    unfold updateGttStatus
    rw [if_neg hne]
    simp only [List.find?_map, hcomp, hfind, Option.map_some]
    simp [hrid]
  refine ⟨key status oid em ltp, updateRow_status now status oid em ltp r,
    ?_, ?_⟩
  · intro hstat
    unfold cancelGtt getGtt
    rw [hfind]
    simp only []
    rw [if_pos]
    exact hstat
  · intro hstat
    obtain ⟨t2, hupd⟩ := key "CANCELLED" none none none
    refine ⟨t2, rowToGtt (updateRow now "CANCELLED" none none none r),
      ?_, updateRow_status now "CANCELLED" none none none r⟩
    unfold cancelGtt getGtt
    rw [hfind]
    simp only []
    rw [if_neg]
    · exact hupd
    · simp [rowToGtt, hstat]

/-- Witness for `gtt_store_transition_enforcement` on a one-row table holding
an ACTIVE GTT. -/
theorem gtt_store_transition_enforcement_witness :
    (∃ t2, updateGttStatus
        [⟨2, "TCS", "NSE", 100, "MARKET", "SELL", 5, none, "ACTIVE", some 0,
          none, none, none, none, none, none⟩] 7 2 "TRIGGERED" (some "OID1")
        none (some 101) =
      .ok (t2, rowToGtt (updateRow 7 "TRIGGERED" (some "OID1") none (some 101)
        ⟨2, "TCS", "NSE", 100, "MARKET", "SELL", 5, none, "ACTIVE", some 0,
          none, none, none, none, none, none⟩))) ∧
    (rowToGtt (updateRow 7 "TRIGGERED" (some "OID1") none (some 101)
      ⟨2, "TCS", "NSE", 100, "MARKET", "SELL", 5, none, "ACTIVE", some 0,
        none, none, none, none, none, none⟩)).status = "TRIGGERED" ∧
    ((⟨2, "TCS", "NSE", 100, "MARKET", "SELL", 5, none, "ACTIVE", some 0,
        none, none, none, none, none, none⟩ : GTTRow).status ≠ "ACTIVE" →
      cancelGtt [⟨2, "TCS", "NSE", 100, "MARKET", "SELL", 5, none, "ACTIVE",
        some 0, none, none, none, none, none, none⟩] 7 2 =
        .error .cannotCancel) ∧
    ((⟨2, "TCS", "NSE", 100, "MARKET", "SELL", 5, none, "ACTIVE", some 0,
        none, none, none, none, none, none⟩ : GTTRow).status = "ACTIVE" →
      ∃ t2 g, cancelGtt [⟨2, "TCS", "NSE", 100, "MARKET", "SELL", 5, none,
        "ACTIVE", some 0, none, none, none, none, none, none⟩] 7 2 =
        .ok (t2, g) ∧ g.status = "CANCELLED") :=
  gtt_store_transition_enforcement
    [⟨2, "TCS", "NSE", 100, "MARKET", "SELL", 5, none, "ACTIVE", some 0,
      none, none, none, none, none, none⟩] 7 2 "TRIGGERED" (some "OID1")
    none (some 101)
    ⟨2, "TCS", "NSE", 100, "MARKET", "SELL", 5, none, "ACTIVE", some 0,
      none, none, none, none, none, none⟩ (by rfl)

/-- Looking a key up in the association list built by mapping a function over
a key list finds the function value of the first matching key. -/
theorem lookup_pair_map (f : String → Nat) :
    ∀ (ks : List String) (s : String),
      (ks.map (fun k => (k, f k))).lookup s =
        (ks.find? (fun k => s = k)).map f := by
  intro ks
  induction ks with
  | nil => intro s; rfl
  | cons k t ih =>
    intro s
    by_cases h : s = k
    · simp [List.lookup, List.find?, h]
    · have hbeq : (s == k) = false := by
        simp [h]
      have hd : decide (s = k) = false := decide_eq_false h
      simp [List.lookup, List.find?, hbeq, hd, ih]

/-- The status dictionary `get_statistics` builds answers every status query
with the exact row count of that status. -/
theorem statistics_lookup (tbl : GTTTable) (now : Int) (s : String) :
    (((getStatistics tbl now).byStatus).lookup s).getD 0 = countStatus tbl s := by
  show (((((tbl.map (fun r => r.status)).dedup).map
    (fun k => (k, countStatus tbl k))).lookup s)).getD 0 = countStatus tbl s
  rw [lookup_pair_map]
  cases hf : ((tbl.map (fun r => r.status)).dedup).find? (fun k => s = k) with
  | some k =>
    have hpk := List.find?_some hf
    have : s = k := by simpa using hpk
    simp [← this]
  | none =>
    have hnm : ∀ x ∈ (tbl.map (fun r => r.status)).dedup, ¬(s = x) := by
      intro x hx
      have := List.find?_eq_none.mp hf x hx
      exact fun hc => this (by simp [hc])
    have hzero : countStatus tbl s = 0 := by
      unfold countStatus
      rw [List.length_eq_zero, List.filter_eq_nil]
      intro r hr hc
      have hs : r.status = s := of_decide_eq_true hc
      exact hnm s (List.mem_dedup.mpr (by
        rw [← hs]
        exact List.mem_map_of_mem (fun r => r.status) hr)) rfl
    simp [hzero]

/-- Claim C8, counterexample. The dictionary `get_statistics` returns has keys
`total`, `by_status`, the five per-status counts, and the `recent_24h` slice
— and no success rate: no `success_rate` key is ever present (its MCP caller
reads `stats.get("success_rate", 0)` and so always reports 0). -/
theorem get_statistics_no_success_rate :
    "success_rate" ∉ getStatisticsKeys ∧
    "total" ∈ getStatisticsKeys ∧
    "recent_24h" ∈ getStatisticsKeys := by
  refine ⟨?_, by decide, by decide⟩
  decide

/-- Claim C8, amended. For every table state, `get_statistics` returns the
total row count, the per-status counts (the GROUP BY dictionary answers every
status with its exact row count, the five named fields included), and the
24-hour activity slice — rows created within the last day and rows triggered
within the last day (never-triggered rows, whose `triggered_at` is NULL, do
not count).  No success rate is part of the result. -/
theorem gtt_statistics_contents (tbl : GTTTable) (now : Int) :
    (getStatistics tbl now).total = tbl.length ∧
    (∀ s, (((getStatistics tbl now).byStatus).lookup s).getD 0 =
      countStatus tbl s) ∧
    (getStatistics tbl now).active = countStatus tbl "ACTIVE" ∧
    (getStatistics tbl now).triggered = countStatus tbl "TRIGGERED" ∧
    (getStatistics tbl now).completed = countStatus tbl "COMPLETED" ∧
    (getStatistics tbl now).cancelled = countStatus tbl "CANCELLED" ∧
    (getStatistics tbl now).failed = countStatus tbl "FAILED" ∧
    (getStatistics tbl now).recentCreated =
      (tbl.filter (fun r => r.created_at.any (fun t => now - oneDay ≤ t))).length ∧
    (getStatistics tbl now).recentTriggered =
      (tbl.filter (fun r => r.triggered_at.any (fun t => now - oneDay ≤ t))).length :=
  ⟨rfl, statistics_lookup tbl now, statistics_lookup tbl now "ACTIVE",
    statistics_lookup tbl now "TRIGGERED", statistics_lookup tbl now "COMPLETED",
    statistics_lookup tbl now "CANCELLED", statistics_lookup tbl now "FAILED",
    rfl, rfl⟩

/-- Claim C10. No Store read path can observe `trigger_ltp` or `notes`: the
`GTTOrder` record has no such fields and `_row_to_gtt` never reads those
columns, so the conversion is invariant under changing them, every read
operation (`get`, `get_active`, `get_by_symbol`, `get_all`) returns the same
records whether or not the hidden columns are erased, and a `create` with
`notes` followed by `get` returns a record independent of the notes — they do
not round-trip. -/
theorem store_reads_hide_trigger_ltp_and_notes :
    (∀ (r : GTTRow) (x : Option ℚ) (n : Option String),
      rowToGtt { r with trigger_ltp := x, notes := n } = rowToGtt r) ∧
    (∀ (tbl : GTTTable) (gttId : Nat),
      getGtt (tbl.map eraseHidden) gttId = getGtt tbl gttId) ∧
    (∀ tbl : GTTTable, getActiveGtts (tbl.map eraseHidden) = getActiveGtts tbl) ∧
    (∀ (tbl : GTTTable) (symbol : String) (exchange status : Option String),
      getGttsBySymbol (tbl.map eraseHidden) symbol exchange status =
        getGttsBySymbol tbl symbol exchange status) ∧
    (∀ (tbl : GTTTable) (lim : Option Nat) (status : Option String),
      getAllGtts (tbl.map eraseHidden) lim status = getAllGtts tbl lim status) ∧
    (∀ (tbl : GTTTable) (newId : Nat) (now : Int)
      (symbol exchange : String) (tp : ℚ) (ot act : String) (q : Int)
      (lp : Option ℚ) (n1 n2 : Option String),
      getGtt (createGtt tbl newId now symbol exchange tp ot act q lp n1).1
        newId =
      getGtt (createGtt tbl newId now symbol exchange tp ot act q lp n2).1
        newId) := by
  refine ⟨fun r x n => rfl, ?_, ?_, ?_, ?_, ?_⟩
  · intro tbl gttId
    unfold getGtt
    rw [List.find?_map]
    have hcomp : ((fun row => decide (row.id = gttId)) ∘ eraseHidden) =
        (fun row : GTTRow => decide (row.id = gttId)) := rfl
    rw [hcomp]
    cases hf : tbl.find? (fun row => decide (row.id = gttId)) with
    | some r => rfl
    | none => rfl
  · intro tbl
    unfold getActiveGtts
    rw [List.filter_map]
    have hcomp : ((fun r => decide (r.status = "ACTIVE")) ∘ eraseHidden) =
        (fun r : GTTRow => decide (r.status = "ACTIVE")) := rfl
    rw [hcomp, List.map_map]
    rfl
  · intro tbl symbol exchange status
    unfold getGttsBySymbol
    rw [List.filter_map, List.map_map]
    rfl
  · intro tbl lim status
    unfold getAllGtts
    rw [List.filter_map]
    cases lim with
    | none =>
      simp only [← List.map_reverse, List.map_map]
      rfl
    | some n =>
      simp only [← List.map_reverse, List.map_take, List.map_map]
      rfl
  · intro tbl newId now symbol exchange tp ot act q lp n1 n2
    unfold createGtt getGtt
    simp only [List.find?_append]
    cases hf : tbl.find? (fun row => decide (row.id = newId)) with
    | some r => rfl
    | none => simp [List.find?, rowToGtt]

/-! Sliding-window lemmas for the rate limiter. -/

theorem evictOld_suffix (now : Int) : ∀ l : List Int, evictOld now l <:+ l := by
  intro l
  induction l with
  | nil => exact List.suffix_rfl
  | cons t rest ih =>
    unfold evictOld
    split
    · exact ih.trans (List.suffix_cons t rest)
    · exact List.suffix_rfl

theorem evictOld_length_le (now : Int) (l : List Int) :
    (evictOld now l).length ≤ l.length :=
  (evictOld_suffix now l).sublist.length_le

theorem evictOld_sorted (now : Int) (l : List Int)
    (h : List.Sorted (· ≤ ·) l) : List.Sorted (· ≤ ·) (evictOld now l) :=
  List.Pairwise.sublist (evictOld_suffix now l).sublist h

/-- After eviction at clock `now`, every retained timestamp is at most one
second old (needs the history to be chronological). -/
theorem evictOld_lb (now : Int) : ∀ l : List Int, List.Sorted (· ≤ ·) l →
    ∀ ts ∈ evictOld now l, now - oneSecond ≤ ts := by
  intro l
  induction l with
  | nil =>
    intro _ ts hts
    simp [evictOld] at hts
  | cons t rest ih =>
    intro hs ts hts
    rw [List.sorted_cons] at hs
    unfold evictOld at hts
    split at hts
    · exact ih hs.2 ts hts
    · rename_i hnot
      rcases List.mem_cons.mp hts with h1 | h2
      · subst h1
        omega
      · have := hs.1 ts h2
        omega

/-- Eviction drops a prefix of strictly-old timestamps. -/
theorem evictOld_decomp (now : Int) : ∀ l : List Int,
    ∃ d, l = d ++ evictOld now l ∧ ∀ ts ∈ d, ts < now - oneSecond := by
  intro l
  induction l with
  | nil => exact ⟨[], rfl, by simp⟩
  | cons t rest ih =>
    unfold evictOld
    split
    · rename_i hold
      obtain ⟨d, hd, hlt⟩ := ih
      refine ⟨t :: d, ?_, ?_⟩
      · rw [List.cons_append, ← hd]
      · intro ts hts
        rcases List.mem_cons.mp hts with h1 | h2
        · subst h1
          exact hold
        · exact hlt ts h2
    · exact ⟨[], rfl, by simp⟩

theorem evictOld_cons_old (now t : Int) (rest : List Int)
    (h : t < now - oneSecond) :
    evictOld now (t :: rest) = evictOld now rest := by
  show (if t < now - oneSecond then evictOld now rest else t :: rest) =
    evictOld now rest
  rw [if_pos h]

theorem dequeAppend_small (l : List Int) (t : Int) (h : l.length ≤ 99) :
    dequeAppend l t = l ++ [t] := by
  unfold dequeAppend
  rw [if_neg]
  simp only [List.length_append, List.length_cons, List.length_nil]
  omega

theorem windowCount_append (a b : List Int) (t : Int) :
    windowCount (a ++ b) t = windowCount a t + windowCount b t := by
  unfold windowCount
  rw [List.filter_append, List.length_append]

theorem windowCount_zero_of_lt (a : List Int) (t : Int)
    (h : ∀ ts ∈ a, ts < t) : windowCount a t = 0 := by
  unfold windowCount
  rw [List.length_eq_zero, List.filter_eq_nil]
  intro ts hts
  have := h ts hts
  simp only [Bool.and_eq_true, decide_eq_true_eq, not_and]
  intro h1
  omega

theorem windowCount_le_length (a : List Int) (t : Int) :
    windowCount a t ≤ a.length :=
  List.length_filter_le _ _

theorem windowCount_single (s t : Int) :
    windowCount [s] t = if t ≤ s ∧ s ≤ t + oneSecond then 1 else 0 := by
  by_cases h1 : t ≤ s ∧ s ≤ t + oneSecond
  · unfold windowCount
    simp [List.filter, h1.1, h1.2, h1]
  · rw [if_neg h1]
    have hfalse : (decide (t ≤ s) && decide (s ≤ t + oneSecond)) = false := by
      by_cases h2 : t ≤ s
      · have h3 : ¬s ≤ t + oneSecond := fun hc => h1 ⟨h2, hc⟩
        simp [h2, h3]
      · simp [h2]
    unfold windowCount
    simp [List.filter, hfalse]

theorem sorted_append_last (l : List Int) (s : Int)
    (h : List.Sorted (· ≤ ·) l) (hb : ∀ x ∈ l, x ≤ s) :
    List.Sorted (· ≤ ·) (l ++ [s]) := by
  refine List.pairwise_append.mpr ⟨h, List.pairwise_singleton _ _, ?_⟩
  intro a ha b hb2
  rw [List.mem_singleton] at hb2
  subst hb2
  exact hb a ha
/-- Branch equation: window full and `wait_time > 0` — sleep, re-evict at the
wake reading, record the wake reading. -/
theorem acquireStep_cons_sleep (limit : Nat) (hist : List Int) (e : AcqEvent)
    (oldest : Int) (rest : List Int)
    (hev : evictOld e.tNow hist = oldest :: rest)
    (hfull : limit ≤ rest.length + 1)
    (hWT : 0 < oneSecond - (e.tNow - oldest)) :
    acquireStep limit hist e =
      (e.tWake, dequeAppend (evictOld e.tWake (oldest :: rest)) e.tWake) := by
  simp only [acquireStep, hev, List.length_cons, hfull, hWT, if_true]

/-- Branch equation: window below the limit — record immediately. -/
theorem acquireStep_nofull (limit : Nat) (hist : List Int) (e : AcqEvent)
    (hnot : ¬limit ≤ (evictOld e.tNow hist).length) :
    acquireStep limit hist e =
      (e.tNow, dequeAppend (evictOld e.tNow hist) e.tNow) := by
  simp only [acquireStep, hnot, if_false]

/-- Unpacking the separation conditions on a full window: the call slept
(`wait_time > 0`) and woke strictly after `oldest + 1s`. -/
theorem eventStrict_cons_full (limit : Nat) (hist : List Int) (e : AcqEvent)
    (oldest : Int) (rest : List Int)
    (hev : evictOld e.tNow hist = oldest :: rest)
    (hfull : limit ≤ rest.length + 1)
    (hstrict : eventStrict limit hist e = true) :
    0 < oneSecond - (e.tNow - oldest) ∧ oldest + oneSecond < e.tWake := by
  simp only [eventStrict, hev, List.length_cons, hfull, if_true] at hstrict
  split at hstrict
  · exact ⟨‹_›, of_decide_eq_true hstrict⟩
  · simp at hstrict

/-- The single-step preservation lemma: one boundary-separated `acquire` call
keeps `HistInv` — in particular the recorded issue keeps every closed
one-second window of the trace at or below `limit`. -/
theorem acquireStep_inv (limit : Nat) (hist trace : List Int) (clock : Int)
    (e : AcqEvent) (hlim : 1 ≤ limit) (hlim2 : limit ≤ 100)
    (hInv : HistInv limit hist trace clock) (hclock : clock ≤ e.tNow)
    (hstrict : eventStrict limit hist e = true) :
    HistInv limit (acquireStep limit hist e).2
      (trace ++ [(acquireStep limit hist e).1])
      (acquireStep limit hist e).1 := by
  obtain ⟨⟨dropped0, htr, hdrop0⟩, hle, hlen, hsort, hwin⟩ := hInv
  have hsufhist : hist <:+ trace := ⟨dropped0, htr.symm⟩
  have hsorthist : List.Sorted (· ≤ ·) hist :=
    List.Pairwise.sublist hsufhist.sublist hsort
  have hsorth1 : List.Sorted (· ≤ ·) (evictOld e.tNow hist) :=
    evictOld_sorted e.tNow hist hsorthist
  obtain ⟨d1, hd1eq, hd1lt⟩ := evictOld_decomp e.tNow hist
  have hh1len : (evictOld e.tNow hist).length ≤ limit :=
    le_trans (evictOld_length_le e.tNow hist) hlen
  by_cases hfullP : limit ≤ (evictOld e.tNow hist).length
  case pos =>
    cases hh1c : evictOld e.tNow hist with
    | nil =>
      rw [hh1c] at hfullP
      simp at hfullP
      omega
    | cons oldest rest =>
      rw [hh1c] at hfullP hd1eq hh1len
      simp only [List.length_cons] at hfullP hh1len
      obtain ⟨hWT, hwake⟩ :=
        eventStrict_cons_full limit hist e oldest rest hh1c hfullP hstrict
      rw [acquireStep_cons_sleep limit hist e oldest rest hh1c hfullP hWT]
      dsimp only
      have holdlow : e.tNow - oneSecond ≤ oldest :=
        evictOld_lb e.tNow hist hsorthist oldest
          (by rw [hh1c]; exact List.mem_cons_self oldest rest)
      have htNowWake : e.tNow ≤ e.tWake := by omega
      have hdrop_head : evictOld e.tWake (oldest :: rest) =
          evictOld e.tWake rest :=
        evictOld_cons_old e.tWake oldest rest (by omega)
      have hh2len : (evictOld e.tWake (oldest :: rest)).length ≤ limit - 1 := by
        rw [hdrop_head]
        have := evictOld_length_le e.tWake rest
        omega
      obtain ⟨d3, hd3eq, hd3lt⟩ := evictOld_decomp e.tWake (oldest :: rest)
      set h2 := evictOld e.tWake (oldest :: rest) with hh2def
      rw [dequeAppend_small h2 e.tWake (by omega)]
      have htrace2 : trace = (dropped0 ++ d1 ++ d3) ++ h2 := by
        rw [htr, hd1eq, hd3eq]
        simp [List.append_assoc]
      have hDlt : ∀ ts ∈ dropped0 ++ d1 ++ d3, ts < e.tWake - oneSecond := by
        intro ts hts
        rcases List.mem_append.mp hts with h01 | h3
        · rcases List.mem_append.mp h01 with h0 | h1b
          · have := hdrop0 ts h0
            omega
          · have := hd1lt ts h1b
            omega
        · have := hd3lt ts h3
          omega
      have htrle : ∀ x ∈ trace, x ≤ e.tWake := by
        intro x hx
        have := hle x hx
        omega
      refine ⟨⟨dropped0 ++ d1 ++ d3, ?_, hDlt⟩, ?_, ?_, ?_, ?_⟩
      · rw [htrace2, List.append_assoc]
      · intro ts hts
        rcases List.mem_append.mp hts with h1 | h2m
        · exact htrle ts h1
        · rw [List.mem_singleton] at h2m
          omega
      · simp only [List.length_append, List.length_singleton, List.length_cons, List.length_nil]
        omega
      · exact sorted_append_last trace e.tWake hsort htrle
      · intro t
        rw [windowCount_append, windowCount_single]
        by_cases hin : t ≤ e.tWake ∧ e.tWake ≤ t + oneSecond
        · rw [if_pos hin]
          have hwtr : windowCount trace t ≤ limit - 1 := by
            rw [htrace2, windowCount_append]
            have hz : windowCount (dropped0 ++ d1 ++ d3) t = 0 :=
              windowCount_zero_of_lt _ t (fun ts hts => by
                have := hDlt ts hts
                omega)
            rw [hz]
            have := windowCount_le_length h2 t
            omega
          omega
        · rw [if_neg hin]
          have := hwin t
          omega
  case neg =>
    rw [acquireStep_nofull limit hist e hfullP]
    dsimp only
    rw [dequeAppend_small (evictOld e.tNow hist) e.tNow (by omega)]
    set h1 := evictOld e.tNow hist with hh1def
    have htrace2 : trace = (dropped0 ++ d1) ++ h1 := by
      rw [htr, hd1eq, List.append_assoc]
    have hDlt : ∀ ts ∈ dropped0 ++ d1, ts < e.tNow - oneSecond := by
      intro ts hts
      rcases List.mem_append.mp hts with h0 | h1b
      · have := hdrop0 ts h0
        omega
      · exact hd1lt ts h1b
    have htrle : ∀ x ∈ trace, x ≤ e.tNow := by
      intro x hx
      have := hle x hx
      omega
    refine ⟨⟨dropped0 ++ d1, ?_, hDlt⟩, ?_, ?_, ?_, ?_⟩
    · rw [htrace2, List.append_assoc]
    · intro ts hts
      rcases List.mem_append.mp hts with h1 | h2m
      · exact htrle ts h1
      · rw [List.mem_singleton] at h2m
        omega
    · simp only [List.length_append, List.length_singleton, List.length_cons, List.length_nil]
      omega
    · exact sorted_append_last trace e.tNow hsort htrle
    · intro t
      rw [windowCount_append, windowCount_single]
      by_cases hin : t ≤ e.tNow ∧ e.tNow ≤ t + oneSecond
      · rw [if_pos hin]
        have hwtr : windowCount trace t ≤ limit - 1 := by
          rw [htrace2, windowCount_append]
          have hz : windowCount (dropped0 ++ d1) t = 0 :=
            windowCount_zero_of_lt _ t (fun ts hts => by
              have := hDlt ts hts
              omega)
          rw [hz]
          have := windowCount_le_length h1 t
          omega
        omega
      · rw [if_neg hin]
        have := hwin t
        omega

/-- Along a boundary-separated schedule, the invariant propagates and bounds
every window of the final issue trace. -/
theorem strictRun_window (limit : Nat) (hlim : 1 ≤ limit)
    (hlim2 : limit ≤ 100) :
    ∀ (events : List AcqEvent) (hist trace : List Int) (clock : Int),
      HistInv limit hist trace clock →
      strictRun limit hist clock events = true →
      ∀ t : Int, windowCount (runLimiter limit hist trace events).2 t ≤ limit := by
  intro events
  induction events with
  | nil =>
    intro hist trace clock hInv hrun t
    exact hInv.2.2.2.2 t
  | cons e es ih =>
    intro hist trace clock hInv hrun t
    simp only [strictRun, Bool.and_eq_true, decide_eq_true_eq] at hrun
    obtain ⟨⟨⟨hclock, hwake⟩, hstrict⟩, hrest⟩ := hrun
    simp only [runLimiter]
    exact ih (acquireStep limit hist e).2 (trace ++ [(acquireStep limit hist e).1])
      (acquireStep limit hist e).1
      (acquireStep_inv limit hist trace clock e hlim hlim2 hInv hclock hstrict)
      hrest t

/-- Every `acquire` call records exactly one issue — none is refused. -/
theorem runLimiter_trace_length (limit : Nat) :
    ∀ (events : List AcqEvent) (hist trace : List Int),
      (runLimiter limit hist trace events).2.length =
        trace.length + events.length := by
  intro events
  induction events with
  | nil =>
    intro hist trace
    simp [runLimiter]
  | cons e es ih =>
    intro hist trace
    simp only [runLimiter]
    rw [ih]
    simp only [List.length_append, List.length_singleton, List.length_cons, List.length_nil]
    omega

/-- Claim C4, counterexample. A runtime-consistent schedule on which the
limiter breaks the one-second sliding-window bound for `limit = 1`: a token
at tick 0, then two acquires whose clock reads exactly one second later.
The eviction predicate (`< now - 1s`, strict) retains the tick-0 entry, the
`wait_time > 0` guard sees `wait_time = 0` and skips the sleep, and both
calls record at once — two tokens at the same microsecond, and three inside
the closed window starting at tick 0. -/
theorem rate_limiter_boundary_counterexample :
    validRun 1 [] 0 boundaryEvents = true ∧
    (runLimiter 1 [] [] boundaryEvents).2 = [0, oneSecond, oneSecond] ∧
    1 < windowCount (runLimiter 1 [] [] boundaryEvents).2 oneSecond := by
  refine ⟨by decide, by decide, by decide⟩

/-- Claim C4, amended. `acquire` fails no request — every call blocks as needed
and then records exactly one token.  The sliding-window bound holds away from
the exact one-second boundary: for a configured limit between 1 and 100 (the
`deque(maxlen=100)` silently defeats larger limits), as long as no call's
final clock reading falls exactly one second after the oldest retained
request — every sleep overshoots its deadline strictly and no full window is
met with `wait_time ≤ 0` — no closed one-second window ever contains more
than `limit_per_sec` issued tokens.  At the exact boundary the bound can be
exceeded (see the counterexample). -/
theorem rate_limiter_sliding_window_bound (limit : Nat) (c0 : Int)
    (events : List AcqEvent) (hlim : 1 ≤ limit) (hlim2 : limit ≤ 100)
    (hrun : strictRun limit [] c0 events = true) :
    (runLimiter limit [] [] events).2.length = events.length ∧
    ∀ t : Int, windowCount (runLimiter limit [] [] events).2 t ≤ limit := by
  constructor
  · have := runLimiter_trace_length limit events [] []
    simpa using this
  · intro t
    refine strictRun_window limit hlim hlim2 events [] [] c0 ?_ hrun t
    refine ⟨⟨[], rfl, by simp⟩, by simp, by simp, by simp, ?_⟩
    intro t2
    simp [windowCount]

/-- Witness for `rate_limiter_sliding_window_bound`: a single acquire on an
empty bucket with `limit = 1`. -/
theorem rate_limiter_sliding_window_bound_witness :
    strictRun 1 [] 0 [⟨0, 0⟩] = true ∧
    (runLimiter 1 [] [] [⟨0, 0⟩]).2.length = 1 ∧
    windowCount (runLimiter 1 [] [] [⟨0, 0⟩]).2 0 ≤ 1 :=
  ⟨by decide,
    (rate_limiter_sliding_window_bound 1 0 [⟨0, 0⟩] (by decide) (by decide)
      (by decide)).1,
    (rate_limiter_sliding_window_bound 1 0 [⟨0, 0⟩] (by decide) (by decide)
      (by decide)).2 0⟩

end Trader
